import Mathlib

set_option maxRecDepth 2000

/-! Shallow embedding of the socket conformance harness in src/src/lib.rs.
The worker runtime's socket provider is an external collaborator, so each
probe is embedded as a pure function of an environment recording what the
collaborator's operations return (success, or the rendered error text). The
tokio select race between a probe and its 5000 ms deadline is embedded by a
boolean recording which branch settles first. -/

/-- Secure transport modes of the socket builder (`SecureTransport` in the
worker crate): `Off`, `On`, `StartTls`. -/
inductive SecureTransport where
  | Off
  | On
  | StartTls
  deriving DecidableEq

/-- Configuration accumulated by `Socket::builder()`. A field left `none` was
never set by the probe, so the collaborator's builder default applies. -/
structure SocketBuilder where
  secureTransport : Option SecureTransport := none
  allowHalfOpen : Option Bool := none
  deriving DecidableEq

/-- A recorded call to `builder.connect(host, port)` with the options the
builder had accumulated at that point. -/
structure ConnectCall where
  host : String
  port : Nat
  opts : SocketBuilder
  deriving DecidableEq

/-- `Socket::builder()`: the empty builder. -/
def Socket.builder : SocketBuilder := {}

/-- `builder.secure_transport(mode)`. -/
def SocketBuilder.secure_transport (b : SocketBuilder) (m : SecureTransport) : SocketBuilder :=
  { b with secureTransport := some m }

/-- `builder.allow_half_open(flag)`. -/
def SocketBuilder.allow_half_open (b : SocketBuilder) (v : Bool) : SocketBuilder :=
  { b with allowHalfOpen := some v }

/-- `builder.connect(host, port)`, recording the configuration used. -/
def SocketBuilder.connect (b : SocketBuilder) (host : String) (port : Nat) : ConnectCall :=
  { host := host, port := port, opts := b }

/-- The connect call of `test_no_ssl` (lib.rs lines 20-22). -/
def test_no_ssl_connect : ConnectCall :=
  (Socket.builder.secure_transport SecureTransport.Off).connect "example.com" 80

/-- The connect call of `test_ssl` (lib.rs lines 40-42). -/
def test_ssl_connect : ConnectCall :=
  (Socket.builder.secure_transport SecureTransport.On).connect "example.com" 443

/-- The connect call of `test_start_tls` (lib.rs lines 60-62). -/
def test_start_tls_connect : ConnectCall :=
  (Socket.builder.secure_transport SecureTransport.StartTls).connect "example.com" 443

/-- The connect call of `test_allow_half_open` (lib.rs lines 82-84). -/
def test_allow_half_open_connect : ConnectCall :=
  (Socket.builder.allow_half_open true).connect "example.com" 443

/-- The connect call of `test_disallow_half_open` (lib.rs lines 111-113). -/
def test_disallow_half_open_connect : ConnectCall :=
  (Socket.builder.allow_half_open false).connect "example.com" 443

/-- Collaborator behaviour for the initial connect/write/read script of a
probe: each operation either succeeds, or fails with the Rust Debug rendering
of its error (the text the probe splices after the operation tag). -/
structure ScriptEnv where
  connect : Except String Unit
  write : Except String Unit
  readToEnd : Except String Unit

/-- The inner error of a `std::io::Error` returned by the secondary write:
`msg` is its Display rendering (what `e.to_string()` yields), `dbg` its Debug
rendering (what `format!("{:?}", e)` yields). -/
structure InnerErr where
  msg : String
  dbg : String
  deriving DecidableEq

/-- Result of the secondary `socket.write(b"FOO")` in the half-open probes:
success, or a `std::io::Error` whose `get_ref()` inner error may be absent. -/
inductive SecondaryWrite where
  | ok
  | err (inner : Option InnerErr)
  deriving DecidableEq

/-- Collaborator behaviour for a half-open probe: the initial script plus the
secondary write performed after `read_to_end` has seen EOF. -/
structure HalfOpenEnv where
  connect : Except String Unit
  write : Except String Unit
  readToEnd : Except String Unit
  secondary : SecondaryWrite

/-- `test_no_ssl` (lib.rs lines 19-37): plaintext connect, write request,
read to end; each failure is tagged with the failing operation. -/
def test_no_ssl (env : ScriptEnv) : Except String Unit :=
  match env.connect with
  | .error e => .error ("connect failed: " ++ e)
  | .ok _ =>
    match env.write with
    | .error e => .error ("socket.write failed: " ++ e)
    | .ok _ =>
      match env.readToEnd with
      | .error e => .error ("socket.read_to_end failed: " ++ e)
      | .ok _ => .ok ()

/-- `test_ssl` (lib.rs lines 39-57): same script under TLS-on-connect. -/
def test_ssl (env : ScriptEnv) : Except String Unit :=
  match env.connect with
  | .error e => .error ("connect failed: " ++ e)
  | .ok _ =>
    match env.write with
    | .error e => .error ("socket.write failed: " ++ e)
    | .ok _ =>
      match env.readToEnd with
      | .error e => .error ("socket.read_to_end failed: " ++ e)
      | .ok _ => .ok ()

/-- `test_start_tls` (lib.rs lines 59-79): connect in StartTls mode, upgrade
via `start_tls()` (which cannot fail in the interface), then the same
write/read script. -/
def test_start_tls (env : ScriptEnv) : Except String Unit :=
  match env.connect with
  | .error e => .error ("connect failed: " ++ e)
  | .ok _ =>
    match env.write with
    | .error e => .error ("socket.write failed: " ++ e)
    | .ok _ =>
      match env.readToEnd with
      | .error e => .error ("socket.read_to_end failed: " ++ e)
      | .ok _ => .ok ()

/-- `test_allow_half_open` (lib.rs lines 81-108): the initial script, then a
secondary write. A successful secondary write passes; a failed one passes only
when its inner error's Display text is exactly
"Error: Network connection lost.". -/
def test_allow_half_open (env : HalfOpenEnv) : Except String Unit :=
  match env.connect with
  | .error e => .error ("connect failed: " ++ e)
  | .ok _ =>
    match env.write with
    | .error e => .error ("socket.write failed: " ++ e)
    | .ok _ =>
      match env.readToEnd with
      | .error e => .error ("socket.read_to_end failed: " ++ e)
      | .ok _ =>
        match env.secondary with
        | .ok => .ok ()
        | .err none => .error "std::io::Error no inner"
        | .err (some e) =>
          if e.msg = "Error: Network connection lost." then .ok ()
          else .error ("Unexpected error: " ++ e.dbg)

/-- `test_disallow_half_open` (lib.rs lines 110-134): the initial script, then
a secondary write. A successful secondary write fails the probe; a failed one
passes only when its inner error's Display text is exactly
"TypeError: This WritableStream has been closed.". -/
def test_disallow_half_open (env : HalfOpenEnv) : Except String Unit :=
  match env.connect with
  | .error e => .error ("connect failed: " ++ e)
  | .ok _ =>
    match env.write with
    | .error e => .error ("socket.write failed: " ++ e)
    | .ok _ =>
      match env.readToEnd with
      | .error e => .error ("socket.read_to_end failed: " ++ e)
      | .ok _ =>
        match env.secondary with
        | .ok => .error "Write after EOF succeeded."
        | .err none => .error "std::io::Error no inner"
        | .err (some e) =>
          if e.msg = "TypeError: This WritableStream has been closed." then .ok ()
          else .error ("Unexpected error: " ++ e.dbg)

/-- Outcome of one raced probe, per the spec's data model. -/
inductive Outcome where
  | success
  | failure (reason : String)
  | timedOut
  deriving DecidableEq

/-- Whether an outcome sets the run's `failed` flag: both branches that set
`failed = true` in the select arms (lib.rs lines 156-163). -/
def Outcome.isFailed : Outcome → Bool
  | .success => false
  | .failure _ => true
  | .timedOut => true

/-- The `tokio::select!` race of one probe against `timeout(5_000)`
(lib.rs lines 153-165). `deadlineFirst` records which branch settles first:
when the deadline wins the outcome is TimedOut and the probe's eventual
result is discarded; otherwise the probe's `Result` decides. -/
def raceOutcome (deadlineFirst : Bool) (res : Except String Unit) : Outcome :=
  if deadlineFirst then .timedOut
  else
    match res with
    | .ok _ => .success
    | .error e => .failure e

/-- The status line formatted in the select arms (lib.rs lines 155-163). -/
def statusLine (name : String) : Outcome → String
  | .success => "[SUCCESS] " ++ name
  | .failure e => "[FAILED] " ++ name ++ ": " ++ e
  | .timedOut => "[FAILED] " ++ name ++ ": Timed out!"

/-- Environment of one whole run: the collaborator behaviour seen by each
probe, and per probe whether its deadline settles before its check. -/
structure WorkerEnv where
  noSsl : ScriptEnv
  ssl : ScriptEnv
  startTls : ScriptEnv
  allowHalf : HalfOpenEnv
  disallowHalf : HalfOpenEnv
  noSslDeadlineFirst : Bool
  sslDeadlineFirst : Bool
  startTlsDeadlineFirst : Bool
  allowHalfDeadlineFirst : Bool
  disallowHalfDeadlineFirst : Bool

/-- The `tests` vector of `main` (lib.rs lines 140-146) with, for each named
probe, its check's result under the run's environment and whether its
deadline settles first. -/
def racedTests (env : WorkerEnv) : List (String × Except String Unit × Bool) :=
  [("NO_SSL", test_no_ssl env.noSsl, env.noSslDeadlineFirst),
   ("SSL", test_ssl env.ssl, env.sslDeadlineFirst),
   ("StartTls", test_start_tls env.startTls, env.startTlsDeadlineFirst),
   ("ALLOW_HALF_OPEN", test_allow_half_open env.allowHalf, env.allowHalfDeadlineFirst),
   ("DISALLOW_HALF_OPEN", test_disallow_half_open env.disallowHalf, env.disallowHalfDeadlineFirst)]

/-- One iteration of the for loop in `main` (lib.rs lines 151-168): race the
probe, update the `failed` flag, append the status line. -/
def raceStep (acc : Bool × List String) (t : String × Except String Unit × Bool) :
    Bool × List String :=
  let o := raceOutcome t.2.2 t.2.1
  (acc.1 || o.isFailed, acc.2 ++ [statusLine t.1 o])

/-- The whole loop of `main`: final `failed` flag and `test_results`. -/
def runReport (env : WorkerEnv) : Bool × List String :=
  (racedTests env).foldl raceStep (false, [])

/-- The HTTP response produced at the end of `main`. -/
structure WorkerResponse where
  status : Nat
  body : String
  deriving DecidableEq

/-- `main` (lib.rs lines 139-176): run the loop, join the lines with newline,
answer 500 when any probe failed or timed out and 200 otherwise. -/
def worker_main (env : WorkerEnv) : WorkerResponse :=
  let r := runReport env
  let body := String.intercalate "\n" r.2
  if r.1 then { status := 500, body := body } else { status := 200, body := body }

/-- Spec-side view: the named outcome of each probe of a run, in declaration
order. -/
def probeOutcomes (env : WorkerEnv) : List (String × Outcome) :=
  [("NO_SSL", raceOutcome env.noSslDeadlineFirst (test_no_ssl env.noSsl)),
   ("SSL", raceOutcome env.sslDeadlineFirst (test_ssl env.ssl)),
   ("StartTls", raceOutcome env.startTlsDeadlineFirst (test_start_tls env.startTls)),
   ("ALLOW_HALF_OPEN",
     raceOutcome env.allowHalfDeadlineFirst (test_allow_half_open env.allowHalf)),
   ("DISALLOW_HALF_OPEN",
     raceOutcome env.disallowHalfDeadlineFirst (test_disallow_half_open env.disallowHalf))]

/-- Spec-side aggregate failure flag: some outcome is Failure or TimedOut. -/
def anyFailed (env : WorkerEnv) : Bool :=
  (probeOutcomes env).any fun p => p.2.isFailed

/-- A half-open probe environment whose initial connect/write/read script
succeeds, leaving only the secondary write's behaviour free. -/
def goodHalfEnv (sw : SecondaryWrite) : HalfOpenEnv :=
  { connect := .ok (), write := .ok (), readToEnd := .ok (), secondary := sw }

lemma runReport_spec (env : WorkerEnv) :
    runReport env = (anyFailed env, (probeOutcomes env).map fun p => statusLine p.1 p.2) := by
  simp [runReport, racedTests, raceStep, probeOutcomes, anyFailed, Bool.or_assoc]

lemma append_ne_of_length_lt (p s t : String) (h : t.length < p.length) : p ++ s ≠ t := by
  intro he
  have hl := congrArg String.length he
  rw [String.length_append] at hl
  omega

lemma script_reason_ne_timeout (env : ScriptEnv) (r : String)
    (h : test_no_ssl env = .error r) : r ≠ "Timed out!" := by
  obtain ⟨c, w, rd⟩ := env
  cases c with
  | error e =>
    simp [test_no_ssl] at h
    exact h ▸ append_ne_of_length_lt _ _ _ (by decide)
  | ok u =>
    cases w with
    | error e =>
      simp [test_no_ssl] at h
      exact h ▸ append_ne_of_length_lt _ _ _ (by decide)
    | ok u2 =>
      cases rd with
      | error e =>
        simp [test_no_ssl] at h
        exact h ▸ append_ne_of_length_lt _ _ _ (by decide)
      | ok u3 => simp [test_no_ssl] at h

lemma ssl_eq_no_ssl (env : ScriptEnv) : test_ssl env = test_no_ssl env := rfl

lemma start_tls_eq_no_ssl (env : ScriptEnv) : test_start_tls env = test_no_ssl env := rfl

lemma allow_half_reason_ne_timeout (env : HalfOpenEnv) (r : String)
    (h : test_allow_half_open env = .error r) : r ≠ "Timed out!" := by
  obtain ⟨c, w, rd, sw⟩ := env
  cases c with
  | error e =>
    simp [test_allow_half_open] at h
    exact h ▸ append_ne_of_length_lt _ _ _ (by decide)
  | ok u =>
    cases w with
    | error e =>
      simp [test_allow_half_open] at h
      exact h ▸ append_ne_of_length_lt _ _ _ (by decide)
    | ok u2 =>
      cases rd with
      | error e =>
        simp [test_allow_half_open] at h
        exact h ▸ append_ne_of_length_lt _ _ _ (by decide)
      | ok u3 =>
        cases sw with
        | ok => simp [test_allow_half_open] at h
        | err inner =>
          cases inner with
          | none =>
            simp [test_allow_half_open] at h
            exact h ▸ (by decide)
          | some e =>
            by_cases hm : e.msg = "Error: Network connection lost."
            · simp [test_allow_half_open, hm] at h
            · simp [test_allow_half_open, hm] at h
              exact h ▸ append_ne_of_length_lt _ _ _ (by decide)

lemma disallow_half_reason_ne_timeout (env : HalfOpenEnv) (r : String)
    (h : test_disallow_half_open env = .error r) : r ≠ "Timed out!" := by
  obtain ⟨c, w, rd, sw⟩ := env
  cases c with
  | error e =>
    simp [test_disallow_half_open] at h
    exact h ▸ append_ne_of_length_lt _ _ _ (by decide)
  | ok u =>
    cases w with
    | error e =>
      simp [test_disallow_half_open] at h
      exact h ▸ append_ne_of_length_lt _ _ _ (by decide)
    | ok u2 =>
      cases rd with
      | error e =>
        simp [test_disallow_half_open] at h
        exact h ▸ append_ne_of_length_lt _ _ _ (by decide)
      | ok u3 =>
        cases sw with
        | ok =>
          simp [test_disallow_half_open] at h
          exact h ▸ (by decide)
        | err inner =>
          cases inner with
          | none =>
            simp [test_disallow_half_open] at h
            exact h ▸ (by decide)
          | some e =>
            by_cases hm : e.msg = "TypeError: This WritableStream has been closed."
            · simp [test_disallow_half_open, hm] at h
            · simp [test_disallow_half_open, hm] at h
              exact h ▸ append_ne_of_length_lt _ _ _ (by decide)

lemma raceOutcome_failure (flag : Bool) (res : Except String Unit) (s : String)
    (h : raceOutcome flag res = .failure s) : res = .error s := by
  cases flag with
  | true => simp [raceOutcome] at h
  | false =>
    cases res with
    | ok u => simp [raceOutcome] at h
    | error e => simpa [raceOutcome] using h

/-- C1: with the initial script succeeded, a failing secondary write makes
the DISALLOW_HALF_OPEN probe Success exactly when the inner error's message
is "TypeError: This WritableStream has been closed."; any other message gives
Failure whose reason carries the unexpected error's rendering. -/
theorem disallow_half_open_secondary_classification (inner : Option InnerErr) :
    (test_disallow_half_open (goodHalfEnv (SecondaryWrite.err inner)) = .ok () ↔
      ∃ e, inner = some e ∧ e.msg = "TypeError: This WritableStream has been closed.") ∧
    (∀ e : InnerErr, inner = some e →
      e.msg ≠ "TypeError: This WritableStream has been closed." →
      test_disallow_half_open (goodHalfEnv (SecondaryWrite.err inner)) =
        .error ("Unexpected error: " ++ e.dbg)) := by
  cases inner with
  | none => simp [test_disallow_half_open, goodHalfEnv]
  | some e =>
    by_cases h : e.msg = "TypeError: This WritableStream has been closed." <;>
      simp [test_disallow_half_open, goodHalfEnv, h]

theorem disallow_half_open_secondary_classification_witness :
    test_disallow_half_open (goodHalfEnv (SecondaryWrite.err (some ⟨"boom", "BoomError"⟩))) =
      .error ("Unexpected error: " ++ "BoomError") :=
  (disallow_half_open_secondary_classification (some ⟨"boom", "BoomError"⟩)).2
    ⟨"boom", "BoomError"⟩ rfl (by decide)

/-- C2: with the initial script succeeded, a secondary write that succeeds
makes the DISALLOW_HALF_OPEN probe fail with reason exactly
"Write after EOF succeeded.". -/
theorem disallow_half_open_write_after_eof :
    test_disallow_half_open (goodHalfEnv SecondaryWrite.ok) =
      .error "Write after EOF succeeded." := rfl

/-- C3: with the initial script succeeded, the ALLOW_HALF_OPEN probe passes
when the secondary write succeeds, passes when it fails with inner message
exactly "Error: Network connection lost.", and fails on any other inner
message, carrying the unexpected error's rendering. -/
theorem allow_half_open_secondary_classification (e : InnerErr) :
    test_allow_half_open (goodHalfEnv SecondaryWrite.ok) = .ok () ∧
    (e.msg = "Error: Network connection lost." →
      test_allow_half_open (goodHalfEnv (SecondaryWrite.err (some e))) = .ok ()) ∧
    (e.msg ≠ "Error: Network connection lost." →
      test_allow_half_open (goodHalfEnv (SecondaryWrite.err (some e))) =
        .error ("Unexpected error: " ++ e.dbg)) := by
  refine ⟨rfl, ?_, ?_⟩ <;> intro h <;> simp [test_allow_half_open, goodHalfEnv, h]

theorem allow_half_open_secondary_classification_witness :
    test_allow_half_open
        (goodHalfEnv (SecondaryWrite.err (some ⟨"Error: Network connection lost.", "Lost"⟩))) =
      .ok () ∧
    test_allow_half_open (goodHalfEnv (SecondaryWrite.err (some ⟨"boom", "BoomError"⟩))) =
      .error ("Unexpected error: " ++ "BoomError") :=
  ⟨(allow_half_open_secondary_classification ⟨"Error: Network connection lost.", "Lost"⟩).2.1 rfl,
   (allow_half_open_secondary_classification ⟨"boom", "BoomError"⟩).2.2 (by decide)⟩

/-- C4: in the race of a probe's check against its deadline, when the check
settles first the outcome is exactly the check's Result (Success for Ok,
Failure with its reason for Err) and never TimedOut; when the deadline
settles first the outcome is TimedOut whatever the check's result. -/
theorem race_outcome_spec (e : String) (res : Except String Unit) :
    raceOutcome false (.ok ()) = .success ∧
    raceOutcome false (.error e) = .failure e ∧
    raceOutcome true res = .timedOut ∧
    raceOutcome false res ≠ .timedOut := by
  refine ⟨rfl, rfl, rfl, ?_⟩
  cases res with
  | ok u => simp [raceOutcome]
  | error e2 => simp [raceOutcome]

theorem race_outcome_spec_witness :
    raceOutcome true (.ok ()) = .timedOut ∧ raceOutcome false (.ok ()) ≠ .timedOut :=
  ⟨(race_outcome_spec "x" (.ok ())).2.2.1, (race_outcome_spec "x" (.ok ())).2.2.2⟩

lemma worker_main_eq (env : WorkerEnv) :
    worker_main env =
      { status := if anyFailed env then 500 else 200,
        body := String.intercalate "\n"
          ((probeOutcomes env).map fun p => statusLine p.1 p.2) } := by
  cases hf : anyFailed env <;>
    simp [worker_main, runReport_spec, hf]

/-- C5: the response status is 500 exactly when some probe's outcome is
Failure or TimedOut and 200 otherwise, and the body is the status lines
joined by newline. -/
theorem response_status_spec (env : WorkerEnv) :
    (worker_main env).status = (if anyFailed env then 500 else 200) ∧
    (worker_main env).body =
      String.intercalate "\n" ((probeOutcomes env).map fun p => statusLine p.1 p.2) ∧
    ((worker_main env).status = 500 ↔ anyFailed env = true) ∧
    (anyFailed env = ((probeOutcomes env).any fun p => p.2.isFailed)) := by
  rw [worker_main_eq]
  refine ⟨rfl, rfl, ?_, rfl⟩
  cases anyFailed env <;> simp

/-- C6: every run records exactly one status line per declared probe, five
in total, in declaration order (NO_SSL, SSL, StartTls, ALLOW_HALF_OPEN,
DISALLOW_HALF_OPEN), with no probe skipped after an earlier failure. -/
theorem report_lines_spec (env : WorkerEnv) :
    (runReport env).2 = (probeOutcomes env).map (fun p => statusLine p.1 p.2) ∧
    (runReport env).2.length = 5 ∧
    (probeOutcomes env).map Prod.fst =
      ["NO_SSL", "SSL", "StartTls", "ALLOW_HALF_OPEN", "DISALLOW_HALF_OPEN"] ∧
    (worker_main env).body = String.intercalate "\n" ((runReport env).2) := by
  have h := runReport_spec env
  refine ⟨?_, ?_, rfl, ?_⟩
  · rw [h]
  · rw [h]
    simp [probeOutcomes]
  · rw [worker_main_eq, h]

lemma colon_timeout : ": " ++ "Timed out!" = ": Timed out!" := by decide

/-- C7: every status line has one of the three documented forms; a TimedOut
outcome is rendered with reason text "Timed out!", both Failure and TimedOut
set the aggregate failure flag, and no probe failure reason in this program
ever reads "Timed out!", so the rendered line distinguishes the two. -/
theorem status_line_forms (name r : String) (env : WorkerEnv) :
    statusLine name Outcome.success = "[SUCCESS] " ++ name ∧
    statusLine name (Outcome.failure r) = "[FAILED] " ++ name ++ ": " ++ r ∧
    statusLine name Outcome.timedOut = "[FAILED] " ++ name ++ ": Timed out!" ∧
    Outcome.isFailed (Outcome.failure r) = true ∧
    Outcome.isFailed Outcome.timedOut = true ∧
    (∀ o : Outcome, statusLine name o = "[SUCCESS] " ++ name ∨
      ∃ s, statusLine name o = "[FAILED] " ++ name ++ ": " ++ s) ∧
    (∀ p ∈ probeOutcomes env, ∀ s, p.2 = Outcome.failure s → s ≠ "Timed out!") := by
  refine ⟨rfl, rfl, rfl, rfl, rfl, ?_, ?_⟩
  · intro o
    cases o with
    | success => exact Or.inl rfl
    | failure s => exact Or.inr ⟨s, rfl⟩
    | timedOut =>
      refine Or.inr ⟨"Timed out!", ?_⟩
      rw [String.append_assoc, colon_timeout]
      rfl
  · intro p hp s hs
    simp only [probeOutcomes, List.mem_cons, List.not_mem_nil, or_false] at hp
    rcases hp with h | h | h | h | h
    · subst h
      exact script_reason_ne_timeout _ _ (raceOutcome_failure _ _ _ hs)
    · subst h
      have h2 := raceOutcome_failure _ _ _ hs
      rw [ssl_eq_no_ssl] at h2
      exact script_reason_ne_timeout _ _ h2
    · subst h
      have h2 := raceOutcome_failure _ _ _ hs
      rw [start_tls_eq_no_ssl] at h2
      exact script_reason_ne_timeout _ _ h2
    · subst h
      exact allow_half_reason_ne_timeout _ _ (raceOutcome_failure _ _ _ hs)
    · subst h
      exact disallow_half_reason_ne_timeout _ _ (raceOutcome_failure _ _ _ hs)

/-- A concrete run environment where NO_SSL's connect is refused, every other
probe behaves as expected, and no deadline wins its race. -/
def failingEnv : WorkerEnv :=
  { noSsl := { connect := .error "refused", write := .ok (), readToEnd := .ok () },
    ssl := { connect := .ok (), write := .ok (), readToEnd := .ok () },
    startTls := { connect := .ok (), write := .ok (), readToEnd := .ok () },
    allowHalf := goodHalfEnv SecondaryWrite.ok,
    disallowHalf := goodHalfEnv
      (SecondaryWrite.err (some ⟨"TypeError: This WritableStream has been closed.", "Closed"⟩)),
    noSslDeadlineFirst := false,
    sslDeadlineFirst := false,
    startTlsDeadlineFirst := false,
    allowHalfDeadlineFirst := false,
    disallowHalfDeadlineFirst := false }

theorem status_line_forms_witness :
    statusLine "NO_SSL" Outcome.timedOut = "[FAILED] " ++ "NO_SSL" ++ ": Timed out!" ∧
    "connect failed: refused" ≠ "Timed out!" :=
  ⟨(status_line_forms "NO_SSL" "r" failingEnv).2.2.1,
   (status_line_forms "NO_SSL" "r" failingEnv).2.2.2.2.2.2
     ("NO_SSL", Outcome.failure "connect failed: refused") (by decide)
     "connect failed: refused" rfl⟩

/-- C8: in every probe, a failure of the initial connect, write or read step
yields Failure whose reason names the failing operation and carries the
error's rendering, and the later script steps no longer influence the
result. -/
theorem initial_script_failure_spec (e : String) (w rd : Except String Unit)
    (sw : SecondaryWrite) :
    test_no_ssl { connect := .error e, write := w, readToEnd := rd } =
      .error ("connect failed: " ++ e) ∧
    test_no_ssl { connect := .ok (), write := .error e, readToEnd := rd } =
      .error ("socket.write failed: " ++ e) ∧
    test_no_ssl { connect := .ok (), write := .ok (), readToEnd := .error e } =
      .error ("socket.read_to_end failed: " ++ e) ∧
    test_ssl { connect := .error e, write := w, readToEnd := rd } =
      .error ("connect failed: " ++ e) ∧
    test_ssl { connect := .ok (), write := .error e, readToEnd := rd } =
      .error ("socket.write failed: " ++ e) ∧
    test_ssl { connect := .ok (), write := .ok (), readToEnd := .error e } =
      .error ("socket.read_to_end failed: " ++ e) ∧
    test_start_tls { connect := .error e, write := w, readToEnd := rd } =
      .error ("connect failed: " ++ e) ∧
    test_start_tls { connect := .ok (), write := .error e, readToEnd := rd } =
      .error ("socket.write failed: " ++ e) ∧
    test_start_tls { connect := .ok (), write := .ok (), readToEnd := .error e } =
      .error ("socket.read_to_end failed: " ++ e) ∧
    test_allow_half_open
        { connect := .error e, write := w, readToEnd := rd, secondary := sw } =
      .error ("connect failed: " ++ e) ∧
    test_allow_half_open
        { connect := .ok (), write := .error e, readToEnd := rd, secondary := sw } =
      .error ("socket.write failed: " ++ e) ∧
    test_allow_half_open
        { connect := .ok (), write := .ok (), readToEnd := .error e, secondary := sw } =
      .error ("socket.read_to_end failed: " ++ e) ∧
    test_disallow_half_open
        { connect := .error e, write := w, readToEnd := rd, secondary := sw } =
      .error ("connect failed: " ++ e) ∧
    test_disallow_half_open
        { connect := .ok (), write := .error e, readToEnd := rd, secondary := sw } =
      .error ("socket.write failed: " ++ e) ∧
    test_disallow_half_open
        { connect := .ok (), write := .ok (), readToEnd := .error e, secondary := sw } =
      .error ("socket.read_to_end failed: " ++ e) :=
  ⟨rfl, rfl, rfl, rfl, rfl, rfl, rfl, rfl, rfl, rfl, rfl, rfl, rfl, rfl, rfl⟩

/-- C9: in both half-open probes, a secondary write failing with a
std io Error that carries no inner error is classified Failure with reason
"std::io::Error no inner", never Success. -/
theorem half_open_no_inner_failure :
    test_allow_half_open (goodHalfEnv (SecondaryWrite.err none)) =
      .error "std::io::Error no inner" ∧
    test_disallow_half_open (goodHalfEnv (SecondaryWrite.err none)) =
      .error "std::io::Error no inner" :=
  ⟨rfl, rfl⟩

/-- C10: both half-open probes connect to example.com port 443 without
setting any secure-transport mode (the builder's default stands), and their
connect configurations differ only in the allow_half_open flag (true versus
false). -/
theorem half_open_connect_config :
    test_allow_half_open_connect.host = "example.com" ∧
    test_allow_half_open_connect.port = 443 ∧
    test_disallow_half_open_connect.host = "example.com" ∧
    test_disallow_half_open_connect.port = 443 ∧
    test_allow_half_open_connect.opts.secureTransport = none ∧
    test_disallow_half_open_connect.opts.secureTransport = none ∧
    test_allow_half_open_connect.opts.allowHalfOpen = some true ∧
    test_disallow_half_open_connect.opts.allowHalfOpen = some false ∧
    { test_allow_half_open_connect.opts with allowHalfOpen := none } =
      { test_disallow_half_open_connect.opts with allowHalfOpen := none } :=
  ⟨rfl, rfl, rfl, rfl, rfl, rfl, rfl, rfl, rfl⟩
